import Mathlib

/-!
Verification of the incremental download engine of the openfda repository.

The embedding follows `src/stages/02_download.py` (the thread/process driver);
`src/stages/02_download_async.py` implements the same per-task logic and is
noted where a claim cites it.  Machine dates are modelled as `Int` epoch
seconds; the naive-datetime `timestamp()` call is modelled for a UTC local
timezone (the values themselves matter only for comparisons).  The generic
`dateutil` fallback is an external library, so it is modelled as an arbitrary
function parameter `fb : String -> Option Int` (`none` = the library raised).
-/

namespace OpenFda

/-! ### Python string helpers -/

/-- ASCII whitespace as matched by the `str.strip` call and by the
regex class used for whitespace in the `_strptime` format compiler. -/
def isPySpace (c : Char) : Bool :=
  c = ' ' || c = '\t' || c = '\n' || c = '\r' || c = '\x0b' || c = '\x0c'

/-- Model of Python `str.strip()` (ASCII whitespace; the unicode additions are
irrelevant to the dates handled here). -/
def pyStrip (s : String) : String :=
  String.mk (((s.data.dropWhile isPySpace).reverse.dropWhile isPySpace).reverse)

/-- ASCII lower-casing, for the IGNORECASE matching done by `strptime`. -/
def lowerC (c : Char) : Char :=
  if 'A' ≤ c && c ≤ 'Z' then Char.ofNat (c.toNat + 32) else c

def basenameAux : List Char → List Char → List Char
  | [], acc => acc.reverse
  | '/' :: rest, _ => basenameAux rest []
  | c :: rest, acc => basenameAux rest (c :: acc)

/-- Model of `os.path.basename` for POSIX paths and URLs: the part after the
last slash. -/
def pyBasename (s : String) : String :=
  String.mk (basenameAux s.data [])

/-- Model of `os.path.dirname` for POSIX paths and URLs: everything before the
last slash, with trailing slashes stripped unless the result is all slashes. -/
def pyDirname (s : String) : String :=
  let rev := s.data.reverse
  let headRev := rev.dropWhile (fun c => c ≠ '/')
  if headRev.isEmpty then ""
  else if headRev.all (fun c => c = '/') then String.mk headRev.reverse
  else String.mk ((headRev.dropWhile (fun c => c = '/')).reverse)

/-! ### The Freshness Oracle: `parse_date`

`parse_date` (lines 38-60 of `02_download.py`) tries four `strptime` formats
in order, then the `dateutil` fallback, then returns 0.  The `strptime`
directives are modelled after the regexes CPython compiles for them
(`Lib/_strptime.py`), including the 1-or-2 digit numeric directives, the
ordered alternation with backtracking, the IGNORECASE flag, the full-match
requirement, and the date validation performed by the datetime constructor
after the regex phase. -/

def dval (c : Char) : Nat := c.toNat - '0'.toNat

def twoDigits : List Char → Option (Nat × List Char)
  | a :: b :: rest =>
    if a.isDigit && b.isDigit then some (dval a * 10 + dval b, rest) else none
  | _ => none

def oneDigit : List Char → Option (Nat × List Char)
  | a :: rest => if a.isDigit then some (dval a, rest) else none
  | _ => none

/-- The `%Y` directive: exactly four digits. -/
def year4 : List Char → Option (Nat × List Char)
  | a :: b :: c :: d :: rest =>
    if a.isDigit && b.isDigit && c.isDigit && d.isDigit then
      some (((dval a * 10 + dval b) * 10 + dval c) * 10 + dval d, rest)
    else none
  | _ => none

/-- Result of the regex phase of one `strptime` call. -/
structure PDate where
  y : Nat
  mo : Nat
  d : Nat
  h : Nat
  mi : Nat
  s : Nat
deriving DecidableEq, Repr

/-- A 1-or-2 digit numeric directive.  CPython compiles these to an ordered
alternation whose two-digit branches come first; on failure of the rest of
the pattern the regex engine backtracks to the one-digit branch.  `ok2` and
`ok1` are the value constraints of the two branches. -/
def numTok (ok2 ok1 : Nat → Bool) (k : Nat → List Char → Option PDate)
    (cs : List Char) : Option PDate :=
  let one : Option PDate :=
    match oneDigit cs with
    | some (v, rest) => if ok1 v then k v rest else none
    | none => none
  match twoDigits cs with
  | some (v, rest) =>
    if ok2 v then
      match k v rest with
      | some r => some r
      | none => one
    else one
  | none => one

def lit (c : Char) : List Char → Option (List Char)
  | x :: rest => if x = c then some rest else none
  | [] => none

/-- A literal letter under the IGNORECASE flag of the compiled pattern. -/
def litCI (c : Char) : List Char → Option (List Char)
  | x :: rest => if lowerC x = lowerC c then some rest else none
  | [] => none

/-- A whitespace run: format whitespace is compiled to a one-or-more
whitespace pattern. -/
def ws1 : List Char → Option (List Char)
  | c :: rest => if isPySpace c then some (rest.dropWhile isPySpace) else none
  | [] => none

def matchCI : List Char → List Char → Option (List Char)
  | [], cs => some cs
  | a :: rest1, c :: rest2 => if lowerC c = a then matchCI rest1 rest2 else none
  | _ :: _, [] => none

def matchAnyCI : List (List Char) → List Char → Option (List Char)
  | [], _ => none
  | n :: ns, cs =>
    match matchCI n cs with
    | some r => some r
    | none => matchAnyCI ns cs

/-- The `%a` directive: abbreviated weekday names, case-insensitive (C locale).
The parsed name is discarded when a full date is present. -/
def dayNames : List (List Char) :=
  ["mon", "tue", "wed", "thu", "fri", "sat", "sun"].map String.data

/-- The `%Z` directive for a UTC-configured host: the names utc and gmt,
case-insensitive.  The parsed name does not shift the naive result. -/
def tzNames : List (List Char) :=
  ["utc", "gmt"].map String.data

def monthNames : List (String × Nat) :=
  [("jan", 1), ("feb", 2), ("mar", 3), ("apr", 4), ("may", 5), ("jun", 6),
   ("jul", 7), ("aug", 8), ("sep", 9), ("oct", 10), ("nov", 11), ("dec", 12)]

/-- The `%b` directive: abbreviated month names, case-insensitive. -/
def monthAux : List (String × Nat) → List Char → Option (Nat × List Char)
  | [], _ => none
  | (n, v) :: rest, cs =>
    match matchCI n.data cs with
    | some r => some (v, r)
    | none => monthAux rest cs

/-- The `%H:%M:%S` tail shared by three formats. `after` consumes whatever the
format puts behind the seconds; the full input must be consumed (`strptime`
rejects unconverted trailing data). -/
def synTime (y mo d : Nat) (after : List Char → Option (List Char))
    (cs : List Char) : Option PDate :=
  numTok (fun v => decide (v ≤ 23)) (fun _ => true) (fun h cs1 =>
    match lit ':' cs1 with
    | none => none
    | some cs2 =>
      numTok (fun v => decide (v ≤ 59)) (fun _ => true) (fun mi cs3 =>
        match lit ':' cs3 with
        | none => none
        | some cs4 =>
          numTok (fun v => decide (v ≤ 61)) (fun _ => true) (fun s cs5 =>
            match after cs5 with
            | some [] => some ⟨y, mo, d, h, mi, s⟩
            | _ => none) cs4) cs2) cs

/-- The `%Y-%m-%d` date prefix shared by three formats. -/
def synYmd (k : Nat → Nat → Nat → List Char → Option PDate)
    (cs : List Char) : Option PDate :=
  match year4 cs with
  | none => none
  | some (y, cs1) =>
    match lit '-' cs1 with
    | none => none
    | some cs2 =>
      numTok (fun v => decide (1 ≤ v ∧ v ≤ 12)) (fun v => decide (1 ≤ v))
        (fun mo cs3 =>
          match lit '-' cs3 with
          | none => none
          | some cs4 =>
            numTok (fun v => decide (1 ≤ v ∧ v ≤ 31)) (fun v => decide (1 ≤ v))
              (fun d cs5 => k y mo d cs5) cs4) cs2

/-- Regex phase for format 1, the HTTP date `%a, %d %b %Y %H:%M:%S %Z`. -/
def syn1 (cs : List Char) : Option PDate :=
  match matchAnyCI dayNames cs with
  | none => none
  | some cs1 =>
    match lit ',' cs1 with
    | none => none
    | some cs2 =>
      match ws1 cs2 with
      | none => none
      | some cs3 =>
        numTok (fun v => decide (1 ≤ v ∧ v ≤ 31)) (fun v => decide (1 ≤ v))
          (fun d cs4 =>
            match ws1 cs4 with
            | none => none
            | some cs5 =>
              match monthAux monthNames cs5 with
              | none => none
              | some (mo, cs6) =>
                match ws1 cs6 with
                | none => none
                | some cs7 =>
                  match year4 cs7 with
                  | none => none
                  | some (y, cs8) =>
                    match ws1 cs8 with
                    | none => none
                    | some cs9 =>
                      synTime y mo d (fun cs10 =>
                        match ws1 cs10 with
                        | none => none
                        | some cs11 => matchAnyCI tzNames cs11) cs9) cs3

/-- Regex phase for format 2, `%Y-%m-%d`. -/
def syn2 : List Char → Option PDate :=
  synYmd (fun y mo d cs => if cs.isEmpty then some ⟨y, mo, d, 0, 0, 0⟩ else none)

/-- Regex phase for format 3, `%Y-%m-%dT%H:%M:%S`. -/
def syn3 : List Char → Option PDate :=
  synYmd (fun y mo d cs =>
    match litCI 't' cs with
    | some cs1 => synTime y mo d (fun r => some r) cs1
    | none => none)

/-- Regex phase for format 4, `%Y-%m-%dT%H:%M:%SZ`. -/
def syn4 : List Char → Option PDate :=
  synYmd (fun y mo d cs =>
    match litCI 't' cs with
    | some cs1 => synTime y mo d (litCI 'z') cs1
    | none => none)

def isLeap (y : Nat) : Bool :=
  y % 4 == 0 && (y % 100 != 0 || y % 400 == 0)

def daysInMonth (y mo : Nat) : Nat :=
  if mo = 2 then (if isLeap y then 29 else 28)
  else if mo = 4 ∨ mo = 6 ∨ mo = 9 ∨ mo = 11 then 30
  else 31

/-- Days from 1970-01-01 of a proleptic Gregorian date (civil-days algorithm). -/
def daysFromCivil (y mo d : Nat) : Int :=
  let yAdj : Nat := if mo ≤ 2 then y - 1 else y
  let mp : Nat := if mo ≤ 2 then mo + 9 else mo - 3
  let era : Nat := yAdj / 400
  let yoe : Nat := yAdj % 400
  let doy : Nat := (153 * mp + 2) / 5 + (d - 1)
  let doe : Nat := yoe * 365 + yoe / 4 - yoe / 100 + doy
  (Int.ofNat (era * 146097 + doe)) - 719468

/-- The validation performed by the datetime constructor after the regex
phase: year in range, real calendar day, and seconds below 60 (the regex
admits leap seconds 60 and 61 but the constructor rejects them). -/
def pdValid (p : PDate) : Bool :=
  decide (1 ≤ p.y) && decide (p.y ≤ 9999) && decide (1 ≤ p.mo) &&
  decide (p.mo ≤ 12) && decide (1 ≤ p.d) && decide (p.d ≤ daysInMonth p.y p.mo) &&
  decide (p.h ≤ 23) && decide (p.mi ≤ 59) && decide (p.s ≤ 59)

/-- `timestamp()` of the naive result, for a UTC local timezone. -/
def pdTimestamp? (p : PDate) : Option Int :=
  if pdValid p then
    some (daysFromCivil p.y p.mo p.d * 86400 + Int.ofNat (p.h * 3600 + p.mi * 60 + p.s))
  else none

def strptime1 (s : String) : Option Int := (syn1 s.data).bind pdTimestamp?

def strptime2 (s : String) : Option Int := (syn2 s.data).bind pdTimestamp?

def strptime3 (s : String) : Option Int := (syn3 s.data).bind pdTimestamp?

def strptime4 (s : String) : Option Int := (syn4 s.data).bind pdTimestamp?

/-- The format loop of `parse_date`: the four formats in source order, first
success wins. -/
def tryFormats (s : String) : Option Int :=
  match strptime1 s with
  | some t => some t
  | none =>
    match strptime2 s with
    | some t => some t
    | none =>
      match strptime3 s with
      | some t => some t
      | none => strptime4 s

/-- The format at position `i` of the fixed format list. -/
def strptimeAt : Nat → String → Option Int
  | 0, s => strptime1 s
  | 1, s => strptime2 s
  | 2, s => strptime3 s
  | 3, s => strptime4 s
  | _ + 4, _ => none

/-- `parse_date` (both download stages): the stripped input is tried against
the fixed formats in order; if none matches, the generic `dateutil` fallback
`fb` is consulted on the unstripped input; if that also fails the epoch value
0 is returned.  Total by construction - every Python exception path of the
source function ends in the `return 0` branch. -/
def parse_date (fb : String → Option Int) (s : String) : Int :=
  match tryFormats (pyStrip s) with
  | some t => t
  | none =>
    match fb s with
    | some t => t
    | none => 0

/-! ### JSON values and Python exceptions

The manifest is JSON already parsed by `json.load`; `Json.obj` models a dict
(unique keys, insertion order preserved).  `PyExn` carries the exception
kinds the modelled code can raise. -/

inductive PyExn
  | keyError (k : String)
  | indexError
  | typeError (msg : String)
  | unboundLocalError (n : String)
deriving DecidableEq, Repr

inductive Json
  | null
  | bool (b : Bool)
  | num (n : Int)
  | str (s : String)
  | arr (xs : List Json)
  | obj (kvs : List (String × Json))

/-- Python subscription `j[k]` by a string key: dict lookup raising KeyError,
TypeError on a non-dict. -/
def Json.get? : Json → String → Except PyExn Json
  | .obj kvs, k =>
    match kvs.lookup k with
    | some v => .ok v
    | none => .error (.keyError k)
  | _, _ => .error (.typeError "value is not subscriptable by a string")

/-- Python subscription `j[i]` by an int index: list indexing raising
IndexError out of range.  Non-list values raise (folding the dict-with-int-key
KeyError into the same error case). -/
def Json.at? : Json → Nat → Except PyExn Json
  | .arr xs, i =>
    match xs.get? i with
    | some v => .ok v
    | none => .error .indexError
  | _, _ => .error (.typeError "value is not subscriptable by an int")

/-! ### The Fetch Worker: `download_single_file`

Lines 62-153 of `02_download.py` (the async variant at lines 45-133 of
`02_download_async.py` has the same control flow).  Per-task filesystem state
is three slots: the artifact at `final_file`, the sidecar marker at
`last_modified_file`, and the worker temp file - task paths are distinct
across tasks, so one worker touches no other state.  The network is a
function from the request to one of the response behaviours the code
distinguishes.  Directory creation and file-descriptor errors are
always-succeeding details and are not modelled. -/

structure LocalState where
  artifact : Option String
  marker : Option String
  tmp : Option String
deriving DecidableEq, Repr

structure HttpRequest where
  url : String
  ifModifiedSince : Option String
deriving DecidableEq, Repr

inductive HttpResp
  | notModified
  | ok (body : String) (lastModified : Option String)
  | httpError (code : Nat)
  | connFail (msg : String)
  | midStream (partialBody : String) (msg : String)

/-- The result families of the worker messages.  `downloaded` is the
Downloaded status of the spec; in `02_download.py` no path returns it (the
success return raises first, see `respond`), though the async variant reports
it via `final_file.stat()`, which does not raise. -/
inductive TaskResult
  | downloaded (filename : String)
  | skippedUpToDate (filename : String)
  | skippedNotModified (filename : String)
  | failed (filename msg : String)
  | errorProcessing (filename msg : String)
deriving DecidableEq, Repr

structure WorkerOut where
  result : Except PyExn TaskResult
  state : LocalState
  requests : List HttpRequest

/-- The extraction prologue of the worker (lines 67-74): the nested manifest
lookups, in source evaluation order, ending with the partition URL which must
be a string for `os.path.basename`. -/
def extractInfo (data : Json) (dt fn : String) (idx : Nat) :
    Except PyExn (Json × String) := do
  let results ← data.get? "results"
  let typeObj ← results.get? dt
  let fieldObj ← typeObj.get? fn
  let exportDate ← fieldObj.get? "export_date"
  let parts ← fieldObj.get? "partitions"
  let part ← parts.at? idx
  let fileJ ← part.get? "file"
  match fileJ with
  | .str u => .ok (exportDate, u)
  | _ => .error (.typeError "basename expects a string")

/-- `parse_date` applied to a raw manifest value: a non-string makes the
`strip` call raise inside `parse_date`, which absorbs it into 0. -/
def parseDateJson (fb : String → Option Int) : Json → Int
  | .str s => parse_date fb s
  | _ => 0

/-- The truthiness test `if previous_last_modified:` guarding the header:
`None` and the empty string are both falsy. -/
def imsOf : Option String → Option String
  | some p => if p = "" then none else some p
  | none => none

def httpErrMsg (code : Nat) : String := "HTTP error " ++ toString code

/-- Lines 118-147: dispatch on the response after the temp file was created
(`st1.tmp = some ""`).  Every failure branch removes the temp file and leaves
the artifact slot alone; only the success branch moves the fully written body
into the artifact slot and then, if a Last-Modified header is present, writes
the marker - strictly after the move.  The success branch does not, however,
return a Downloaded result: the return statement at line 141 evaluates
`len(response.content)`, and after `iter_content` consumed the stream the
`content` accessor raises RuntimeError (the content was already consumed).
`hasattr` swallows only AttributeError, so the RuntimeError propagates past
the inner RequestException handler to the catch-all at line 152, where
`filename` is by now assigned - the artifact and marker stay committed but
the task reports `Error processing <filename>: The content for this response
was already consumed`. -/
def respond (filename : String) (st1 : LocalState) (req : HttpRequest) :
    HttpResp → WorkerOut
  | .notModified =>
    ⟨.ok (.skippedNotModified filename), { st1 with tmp := none }, [req]⟩
  | .connFail msg =>
    ⟨.ok (.failed filename msg), { st1 with tmp := none }, [req]⟩
  | .httpError code =>
    ⟨.ok (.failed filename (httpErrMsg code)), { st1 with tmp := none }, [req]⟩
  | .midStream _pb msg =>
    ⟨.ok (.failed filename msg), { st1 with tmp := none }, [req]⟩
  | .ok body lm =>
    let st2 := { st1 with artifact := some body, tmp := none }
    let st3 :=
      match lm with
      | some l => { st2 with marker := some l }
      | none => st2
    ⟨.ok (.errorProcessing filename
        "The content for this response was already consumed"), st3, [req]⟩

/-- Lines 100-147: the conditional GET.  The request is issued exactly once
with the If-Modified-Since header derived from the (possibly absent) stored
marker value. -/
def workerFetch (filename : String) (st : LocalState)
    (net : HttpRequest → HttpResp) (url : String) (prev : Option String) :
    WorkerOut :=
  let req : HttpRequest := ⟨url, imsOf prev⟩
  respond filename { st with tmp := some "" } req (net req)

/-- `download_single_file`.  The final catch-all handler formats
`f"Error processing {filename}: ..."`; when the exception was raised by the
extraction prologue, `filename` is not yet assigned, so the handler itself
raises UnboundLocalError, which escapes the function.  The marker is read
(and stripped) only when both the marker file and the artifact exist; the
up-to-date check compares the stored marker against the export date with a
strict greater-than. -/
def download_single_file (fb : String → Option Int) (data : Json)
    (dt fn : String) (idx : Nat) (st : LocalState)
    (net : HttpRequest → HttpResp) : WorkerOut :=
  match extractInfo data dt fn idx with
  | .error _ => ⟨.error (.unboundLocalError "filename"), st, []⟩
  | .ok (exportDate, fileUrl) =>
    let filename := pyBasename fileUrl
    match st.marker, st.artifact with
    | some m, some _ =>
      let prev := pyStrip m
      if parse_date fb prev > parseDateJson fb exportDate then
        ⟨.ok (.skippedUpToDate filename), st, []⟩
      else
        workerFetch filename st net fileUrl (some prev)
    | some _, none => workerFetch filename st net fileUrl none
    | none, _ => workerFetch filename st net fileUrl none

/-! ### The Synchronization Driver: `main`

Lines 192-273.  The task list is built completely before any download
(KeyError during that loop crashes the run with no fetch); an empty list
returns early with success; otherwise all workers run (the pool executes
every submitted task), the driver collects the result messages, and a worker
exception re-raised at collection crashes the run without a summary.
Result messages are categorized by their leading word, exactly as the
`startswith` calls do. -/

/-- The f-string messages of the result families.  Only the leading word of
each message is consulted by the summary loop; the byte count of the (async)
download message is elided.  In `02_download.py` the Downloaded message is
never produced - the f-string computing it raises, see `respond`. -/
def TaskResult.message : TaskResult → String
  | .downloaded f => "Downloaded " ++ f ++ " (streamed bytes)"
  | .skippedUpToDate f => "Skipped " ++ f ++ " (up to date)"
  | .skippedNotModified f => "Skipped " ++ f ++ " (not modified)"
  | .failed f m => "Failed " ++ f ++ ": " ++ m
  | .errorProcessing f m => "Error processing " ++ f ++ ": " ++ m

/-- Model of Python `str.startswith`. -/
def pyStartsWith (s pre : String) : Bool := pre.data.isPrefixOf s.data

structure Summary where
  downloaded : Nat
  skipped : Nat
  failed : List String
deriving DecidableEq, Repr

/-- Lines 253-256: partition the result messages by status family. -/
def categorize (msgs : List String) : Summary :=
  ⟨(msgs.filter (fun r => pyStartsWith r "Downloaded")).length,
   (msgs.filter (fun r => pyStartsWith r "Skipped")).length,
   msgs.filter (fun r => pyStartsWith r "Failed" || pyStartsWith r "Error")⟩

inductive RunOutcome
  | exitCode (code : Nat) (s : Summary)
  | crashed (e : PyExn)
deriving DecidableEq, Repr

/-- Lines 224-231: the task-list loop of `main`.  Only the `partitions`
attribute is touched here; `export_date` and `file` are first read inside the
workers.  A `partitions` value that is neither a list nor absent is collapsed
to a TypeError in the model (Python `len()` would also accept dict and str
values); no claim concerns such manifests. -/
def download_list (data : Json) : Except PyExn (List (String × String × Nat)) := do
  let results ← data.get? "results"
  match results with
  | .obj typeKvs =>
    typeKvs.foldlM (fun acc p =>
      match p.2 with
      | .obj fieldKvs =>
        fieldKvs.foldlM (fun acc2 q => do
          let parts ← q.2.get? "partitions"
          match parts with
          | .arr xs =>
            pure (acc2 ++ (List.range xs.length).map (fun i => (p.1, q.1, i)))
          | _ => Except.error (.typeError "len expects a sequence")) acc
      | _ => Except.error (.typeError "value is not iterable")) []
  | _ => .error (.typeError "value is not iterable")

/-- One worker invocation per task, each against its own task-local state. -/
def workerOuts (fb : String → Option Int) (data : Json) (st : Nat → LocalState)
    (net : HttpRequest → HttpResp) (tasks : List (String × String × Nat)) :
    List WorkerOut :=
  tasks.enum.map (fun p => download_single_file fb data p.2.1 p.2.2.1 p.2.2.2 (st p.1) net)

/-- The first worker exception encountered at collection, if any. -/
def firstExn (outs : List WorkerOut) : Option PyExn :=
  outs.findSome? (fun o =>
    match o.result with
    | .error e => some e
    | .ok _ => none)

/-- The result messages of the workers that returned one. -/
def collectedMsgs (outs : List WorkerOut) : List String :=
  outs.filterMap (fun o =>
    match o.result with
    | .ok r => some r.message
    | .error _ => none)

/-- `main` from the manifest on: build the task list (a raised KeyError
crashes the run before any fetch), return success on an empty list, otherwise
run every worker, crash if a collected future re-raises, else print the
summary and exit 1 exactly when the failed family is non-empty. -/
def mainRun (fb : String → Option Int) (data : Json) (st : Nat → LocalState)
    (net : HttpRequest → HttpResp) : RunOutcome :=
  match download_list data with
  | .error e => .crashed e
  | .ok tasks =>
    if tasks.isEmpty then .exitCode 0 ⟨0, 0, []⟩
    else
      let outs := workerOuts fb data st net tasks
      match firstExn outs with
      | some e => .crashed e
      | none =>
        let s := categorize (collectedMsgs outs)
        .exitCode (if s.failed.isEmpty then 0 else 1) s

/-- Every network request issued during the run (all submitted tasks run even
when collection later crashes). -/
def mainRequests (fb : String → Option Int) (data : Json) (st : Nat → LocalState)
    (net : HttpRequest → HttpResp) : List HttpRequest :=
  match download_list data with
  | .error _ => []
  | .ok tasks =>
    if tasks.isEmpty then []
    else ((workerOuts fb data st net tasks).map (fun o => o.requests)).flatten

/-- The stored marker value the worker carries into the fetch phase: it is
read (and stripped) only when both the marker file and the artifact exist. -/
def prevOf (st : LocalState) : Option String :=
  match st.marker, st.artifact with
  | some m, some _ => some (pyStrip m)
  | _, _ => none

/-! ### Concrete fixtures used by witnesses and counterexamples -/

/-- A fallback standing for a `dateutil` that fails on everything. -/
def fb0 : String → Option Int := fun _ => none

def st0 : LocalState := ⟨none, none, none⟩

/-- A well-formed manifest: one dataset type, one field, one partition. -/
def mOk : Json :=
  .obj [("results", .obj [("drug", .obj [("event", .obj [
    ("export_date", .str "2024-01-01"),
    ("partitions", .arr [.obj [("file", .str "https://h/a/b.zip")]])])])])]

/-- A manifest whose only entry has `partitions` but no `export_date`. -/
def mNoExport : Json :=
  .obj [("results", .obj [("drug", .obj [("event", .obj [
    ("partitions", .arr [.obj [("file", .str "https://h/a/b.zip")]])])])])]

/-- A manifest with a well-formed entry followed by an entry that has
`partitions` but no `export_date`. -/
def mMixed : Json :=
  .obj [("results", .obj [("drug", .obj [
    ("event", .obj [
      ("export_date", .str "2024-01-01"),
      ("partitions", .arr [.obj [("file", .str "https://h/a/good.zip")]])]),
    ("label", .obj [
      ("partitions", .arr [.obj [("file", .str "https://h/b/bad.zip")]])])])])]

/-- A manifest whose only entry lacks the `partitions` attribute. -/
def mNoParts : Json :=
  .obj [("results", .obj [("drug", .obj [("event", .obj [
    ("export_date", .str "2024-01-01")])])])]

/-- A structurally valid manifest that yields zero tasks. -/
def mEmptyParts : Json :=
  .obj [("results", .obj [("drug", .obj [("event", .obj [
    ("export_date", .str "2024-01-01"),
    ("partitions", .arr [])])])])]

/-! ### Helper lemmas about the fetch phase -/

lemma respond_requests (f : String) (st1 : LocalState) (req : HttpRequest)
    (r : HttpResp) : (respond f st1 req r).requests = [req] := by
  cases r <;> rfl

lemma respond_result_not_skipUTD (f g : String) (st1 : LocalState)
    (req : HttpRequest) (r : HttpResp) :
    (respond f st1 req r).result ≠ .ok (.skippedUpToDate g) := by
  cases r <;> simp [respond]

lemma respond_failed_state (f g m : String) (st1 : LocalState)
    (req : HttpRequest) (r : HttpResp)
    (h : (respond f st1 req r).result = .ok (.failed g m)) :
    (respond f st1 req r).state.artifact = st1.artifact ∧
    (respond f st1 req r).state.tmp = none := by
  cases r <;> simp [respond] at h ⊢

lemma respond_pairing (f : String) (st1 : LocalState) (req : HttpRequest)
    (r : HttpResp)
    (hpre : st1.marker.isSome → st1.artifact ≠ none ∧ st1.artifact ≠ some "")
    (hb : ∀ b lm, r = .ok b lm → b ≠ "") :
    (respond f st1 req r).state.marker.isSome →
      (respond f st1 req r).state.artifact ≠ none ∧
      (respond f st1 req r).state.artifact ≠ some "" := by
  cases r with
  | notModified => simpa [respond] using hpre
  | connFail msg => simpa [respond] using hpre
  | httpError code => simpa [respond] using hpre
  | midStream pb msg => simpa [respond] using hpre
  | ok body lm =>
    have hbody := hb body lm rfl
    cases lm <;> simp [respond] <;> intros <;> exact hbody

lemma workerFetch_requests (f : String) (st : LocalState)
    (net : HttpRequest → HttpResp) (url : String) (prev : Option String) :
    (workerFetch f st net url prev).requests = [⟨url, imsOf prev⟩] :=
  respond_requests f { st with tmp := some "" } ⟨url, imsOf prev⟩
    (net ⟨url, imsOf prev⟩)

lemma workerFetch_result_not_skipUTD (f g : String) (st : LocalState)
    (net : HttpRequest → HttpResp) (url : String) (prev : Option String) :
    (workerFetch f st net url prev).result ≠ .ok (.skippedUpToDate g) :=
  respond_result_not_skipUTD f g { st with tmp := some "" } ⟨url, imsOf prev⟩
    (net ⟨url, imsOf prev⟩)

lemma workerFetch_failed_state (f g m : String) (st : LocalState)
    (net : HttpRequest → HttpResp) (url : String) (prev : Option String)
    (h : (workerFetch f st net url prev).result = .ok (.failed g m)) :
    (workerFetch f st net url prev).state.artifact = st.artifact ∧
    (workerFetch f st net url prev).state.tmp = none :=
  respond_failed_state f g m { st with tmp := some "" } ⟨url, imsOf prev⟩
    (net ⟨url, imsOf prev⟩) h

lemma workerFetch_pairing (f : String) (st : LocalState)
    (net : HttpRequest → HttpResp) (url : String) (prev : Option String)
    (hpre : st.marker.isSome → st.artifact ≠ none ∧ st.artifact ≠ some "")
    (hbody : ∀ r b lm, net r = .ok b lm → b ≠ "") :
    (workerFetch f st net url prev).state.marker.isSome →
      (workerFetch f st net url prev).state.artifact ≠ none ∧
      (workerFetch f st net url prev).state.artifact ≠ some "" :=
  respond_pairing f { st with tmp := some "" } ⟨url, imsOf prev⟩
    (net ⟨url, imsOf prev⟩) hpre (fun b lm h => hbody _ b lm h)

/-- Control-flow trichotomy of the worker: extraction failure (escaping
exception, state untouched, no request), the up-to-date skip (state
untouched, no request), or the fetch phase entered with the stored marker
value `prevOf st`. -/
lemma worker_cases (fb : String → Option Int) (data : Json) (dt fn : String)
    (idx : Nat) (st : LocalState) (net : HttpRequest → HttpResp) :
    (∃ ed u, extractInfo data dt fn idx = Except.ok (ed, u) ∧
        download_single_file fb data dt fn idx st net =
          workerFetch (pyBasename u) st net u (prevOf st)) ∨
    download_single_file fb data dt fn idx st net =
      ⟨.error (.unboundLocalError "filename"), st, []⟩ ∨
    (∃ f, download_single_file fb data dt fn idx st net =
      ⟨.ok (.skippedUpToDate f), st, []⟩) := by
  rcases hx : extractInfo data dt fn idx with e | ⟨ed, u⟩
  · right; left; simp [download_single_file, hx]
  · rcases hm : st.marker with _ | m
    · left
      exact ⟨ed, u, rfl, by simp [download_single_file, hx, hm, prevOf]⟩
    · rcases ha : st.artifact with _ | c
      · left
        exact ⟨ed, u, rfl, by simp [download_single_file, hx, hm, ha, prevOf]⟩
      · by_cases hgt : parse_date fb (pyStrip m) > parseDateJson fb ed
        · right; right
          exact ⟨pyBasename u, by simp [download_single_file, hx, hm, ha, hgt]⟩
        · left
          exact ⟨ed, u, rfl, by simp [download_single_file, hx, hm, ha, hgt, prevOf]⟩

/-! ### Message classification helpers -/

lemma prefix_append_of_prefix {p l : List Char} (t : List Char) (h : p <+: l) :
    p <+: l ++ t :=
  h.trans (List.prefix_append l t)

lemma not_prefix_append {p l : List Char} (t : List Char)
    (h1 : ¬ p <+: l) (h2 : ¬ l <+: p) : ¬ p <+: l ++ t := by
  intro hc
  rcases List.prefix_or_prefix_of_prefix hc (List.prefix_append l t) with h | h
  · exact h1 h
  · exact h2 h

lemma startsPrefix_true (q : String) (t : List Char) (p : String)
    (h : p.data <+: q.data) : p.data.isPrefixOf (q.data ++ t) = true := by
  simp only [List.isPrefixOf_iff_prefix]
  exact prefix_append_of_prefix t h

lemma startsPrefix_false (q : String) (t : List Char) (p : String)
    (h1 : ¬ p.data <+: q.data) (h2 : ¬ q.data <+: p.data) :
    p.data.isPrefixOf (q.data ++ t) = false := by
  simp only [Bool.eq_false_iff, ne_eq, List.isPrefixOf_iff_prefix]
  exact not_prefix_append t h1 h2

/-- Every result message falls in exactly one of the three families the
summary loop distinguishes by `startswith`. -/
lemma message_trichotomy (r : TaskResult) :
    (pyStartsWith r.message "Downloaded" = true ∧
     pyStartsWith r.message "Skipped" = false ∧
     (pyStartsWith r.message "Failed" || pyStartsWith r.message "Error") = false) ∨
    (pyStartsWith r.message "Downloaded" = false ∧
     pyStartsWith r.message "Skipped" = true ∧
     (pyStartsWith r.message "Failed" || pyStartsWith r.message "Error") = false) ∨
    (pyStartsWith r.message "Downloaded" = false ∧
     pyStartsWith r.message "Skipped" = false ∧
     (pyStartsWith r.message "Failed" || pyStartsWith r.message "Error") = true) := by
  cases r with
  | downloaded f =>
    left
    simp only [TaskResult.message, pyStartsWith, String.data_append, List.append_assoc,
      Bool.or_eq_false_iff]
    exact ⟨startsPrefix_true _ _ _ (by decide),
      startsPrefix_false _ _ _ (by decide) (by decide),
      startsPrefix_false _ _ _ (by decide) (by decide),
      startsPrefix_false _ _ _ (by decide) (by decide)⟩
  | skippedUpToDate f =>
    right; left
    simp only [TaskResult.message, pyStartsWith, String.data_append, List.append_assoc,
      Bool.or_eq_false_iff]
    exact ⟨startsPrefix_false _ _ _ (by decide) (by decide),
      startsPrefix_true _ _ _ (by decide),
      startsPrefix_false _ _ _ (by decide) (by decide),
      startsPrefix_false _ _ _ (by decide) (by decide)⟩
  | skippedNotModified f =>
    right; left
    simp only [TaskResult.message, pyStartsWith, String.data_append, List.append_assoc,
      Bool.or_eq_false_iff]
    exact ⟨startsPrefix_false _ _ _ (by decide) (by decide),
      startsPrefix_true _ _ _ (by decide),
      startsPrefix_false _ _ _ (by decide) (by decide),
      startsPrefix_false _ _ _ (by decide) (by decide)⟩
  | failed f m =>
    right; right
    simp only [TaskResult.message, pyStartsWith, String.data_append, List.append_assoc,
      Bool.or_eq_true]
    exact ⟨startsPrefix_false _ _ _ (by decide) (by decide),
      startsPrefix_false _ _ _ (by decide) (by decide),
      Or.inl (startsPrefix_true _ _ _ (by decide))⟩
  | errorProcessing f m =>
    right; right
    simp only [TaskResult.message, pyStartsWith, String.data_append, List.append_assoc,
      Bool.or_eq_true]
    exact ⟨startsPrefix_false _ _ _ (by decide) (by decide),
      startsPrefix_false _ _ _ (by decide) (by decide),
      Or.inr (startsPrefix_true _ _ _ (by decide))⟩

/-- When no worker raised, every task contributes exactly one message and
each message lands in exactly one summary bucket. -/
lemma counts_of_no_exn (outs : List WorkerOut) (h : firstExn outs = none) :
    (categorize (collectedMsgs outs)).downloaded +
      (categorize (collectedMsgs outs)).skipped +
      (categorize (collectedMsgs outs)).failed.length = outs.length := by
  induction outs with
  | nil => rfl
  | cons o rest ih =>
    rcases ho : o.result with e | r
    · exfalso
      simp [firstExn, List.findSome?_cons, ho] at h
    · have hrest : firstExn rest = none := by
        simpa [firstExn, List.findSome?_cons, ho] using h
      have ihr := ih hrest
      rcases message_trichotomy r with ⟨h1, h2, h3⟩ | ⟨h1, h2, h3⟩ | ⟨h1, h2, h3⟩ <;>
        simp only [collectedMsgs, List.filterMap_cons, ho, categorize, List.filter,
          h1, h2, h3, List.length_cons] at ihr ⊢ <;>
        omega

/-! ### Claim theorems -/

/-- C1.  The claim says the worker absorbs every unexpected exception into an
Error result, even one raised before the remote file name is computed.  The
code does not: its catch-all handler interpolates `filename`, which is
unassigned when the exception comes from the manifest-extraction prologue, so
the handler raises UnboundLocalError and the exception escapes the worker
boundary.  Concretely, for a manifest entry lacking `export_date`, extraction
raises KeyError and the worker invocation ends in an escaping exception, not
in a TaskResult. -/
theorem C1_exception_escapes_worker :
    extractInfo mNoExport "drug" "event" 0 = .error (.keyError "export_date") ∧
    (download_single_file fb0 mNoExport "drug" "event" 0 st0
        (fun _ => .ok "body" none)).result = .error (.unboundLocalError "filename") :=
  ⟨rfl, rfl⟩

/-- C2.  For a task whose manifest lookups succeed: (1) if both the artifact
and the marker exist and the stored (stripped) marker parses strictly later
than the export date, the worker returns SkippedUpToDate with the state
untouched and no network request; (2) a SkippedUpToDate result arises only
that way, and comes with no request; (3) when both files exist but the
comparison is not strictly greater (equal timestamps included), the worker
proceeds to issue exactly one GET. -/
theorem C2_skip_up_to_date (fb : String → Option Int) (data : Json)
    (dt fn : String) (idx : Nat) (st : LocalState) (net : HttpRequest → HttpResp)
    (ed : Json) (u : String)
    (hx : extractInfo data dt fn idx = .ok (ed, u)) :
    (∀ m c, st.marker = some m → st.artifact = some c →
      parse_date fb (pyStrip m) > parseDateJson fb ed →
      download_single_file fb data dt fn idx st net =
        ⟨.ok (.skippedUpToDate (pyBasename u)), st, []⟩) ∧
    ((download_single_file fb data dt fn idx st net).result
        = .ok (.skippedUpToDate (pyBasename u)) →
      st.marker ≠ none ∧ st.artifact ≠ none ∧
      parse_date fb (pyStrip (st.marker.getD "")) > parseDateJson fb ed ∧
      (download_single_file fb data dt fn idx st net).requests = []) ∧
    (∀ m c, st.marker = some m → st.artifact = some c →
      ¬ parse_date fb (pyStrip m) > parseDateJson fb ed →
      (download_single_file fb data dt fn idx st net).requests =
        [⟨u, imsOf (some (pyStrip m))⟩]) := by
  refine ⟨?_, ?_, ?_⟩
  · intro m c hm hc hgt
    simp [download_single_file, hx, hm, hc, hgt]
  · intro hres
    rcases hm : st.marker with _ | m
    · exfalso
      have : download_single_file fb data dt fn idx st net =
          workerFetch (pyBasename u) st net u (prevOf st) := by
        simp [download_single_file, hx, hm, prevOf]
      rw [this] at hres
      exact workerFetch_result_not_skipUTD _ _ _ _ _ _ hres
    · rcases hc : st.artifact with _ | c
      · exfalso
        have : download_single_file fb data dt fn idx st net =
            workerFetch (pyBasename u) st net u (prevOf st) := by
          simp [download_single_file, hx, hm, hc, prevOf]
        rw [this] at hres
        exact workerFetch_result_not_skipUTD _ _ _ _ _ _ hres
      · by_cases hgt : parse_date fb (pyStrip m) > parseDateJson fb ed
        · refine ⟨by simp, by simp, by simpa [hm] using hgt, ?_⟩
          simp [download_single_file, hx, hm, hc, hgt]
        · exfalso
          have : download_single_file fb data dt fn idx st net =
              workerFetch (pyBasename u) st net u (some (pyStrip m)) := by
            simp [download_single_file, hx, hm, hc, hgt]
          rw [this] at hres
          exact workerFetch_result_not_skipUTD _ _ _ _ _ _ hres
  · intro m c hm hc hngt
    have : download_single_file fb data dt fn idx st net =
        workerFetch (pyBasename u) st net u (some (pyStrip m)) := by
      simp [download_single_file, hx, hm, hc, hngt]
    rw [this, workerFetch_requests]

/-- C2 witness: with a marker strictly newer than the export date and the
artifact present, the worker skips without a request. -/
theorem C2_skip_up_to_date_witness :
    download_single_file fb0 mOk "drug" "event" 0
        ⟨some "data", some "Tue, 02 Jan 2024 00:00:00 GMT", none⟩
        (fun _ => .ok "" none) =
      ⟨.ok (.skippedUpToDate "b.zip"),
        ⟨some "data", some "Tue, 02 Jan 2024 00:00:00 GMT", none⟩, []⟩ :=
  (C2_skip_up_to_date fb0 mOk "drug" "event" 0
      ⟨some "data", some "Tue, 02 Jan 2024 00:00:00 GMT", none⟩
      (fun _ => .ok "" none) (.str "2024-01-01") "https://h/a/b.zip" rfl).1
    "Tue, 02 Jan 2024 00:00:00 GMT" "data" rfl rfl (by decide)

/-- C3.  Whenever the worker ends a task as Failed (connection error, timeout,
non-2xx or mid-stream fault after the request was opened), the artifact slot
is exactly what it was before the invocation and the temporary file is gone. -/
theorem C3_failed_leaves_artifact_untouched (fb : String → Option Int)
    (data : Json) (dt fn : String) (idx : Nat) (st : LocalState)
    (net : HttpRequest → HttpResp) (f m : String)
    (h : (download_single_file fb data dt fn idx st net).result = .ok (.failed f m)) :
    (download_single_file fb data dt fn idx st net).state.artifact = st.artifact ∧
    (download_single_file fb data dt fn idx st net).state.tmp = none := by
  rcases worker_cases fb data dt fn idx st net with ⟨ed, u, hx, heq⟩ | heq | ⟨g, heq⟩
  · rw [heq] at h ⊢
    exact workerFetch_failed_state _ _ _ _ _ _ _ h
  · rw [heq] at h
    exact absurd h (by simp)
  · rw [heq] at h
    exact absurd h (by simp)

/-- C3 witness: a connection failure on a stale target removes the temp file
and leaves the previously committed artifact bytes in place. -/
theorem C3_failed_witness :
    (download_single_file fb0 mOk "drug" "event" 0
        ⟨some "old-bytes", some "2020-01-01", none⟩
        (fun _ => .connFail "connection dropped")).state.artifact = some "old-bytes" ∧
    (download_single_file fb0 mOk "drug" "event" 0
        ⟨some "old-bytes", some "2020-01-01", none⟩
        (fun _ => .connFail "connection dropped")).state.tmp = none :=
  C3_failed_leaves_artifact_untouched fb0 mOk "drug" "event" 0
    ⟨some "old-bytes", some "2020-01-01", none⟩
    (fun _ => .connFail "connection dropped") "b.zip" "connection dropped" rfl

/-- C4 counterexample.  The claim asserts that in every post-state of a
worker, a present marker implies a present, fully written artifact.  Start a
worker with a marker but no artifact (the artifact was deleted between runs)
and let the GET fail: the post-state keeps the marker and still has no
artifact. -/
theorem C4_pairing_counterexample :
    (download_single_file fb0 mOk "drug" "event" 0
        ⟨none, some "Mon, 01 Jan 2024 00:00:00 GMT", none⟩
        (fun _ => .connFail "connection refused")).state.marker
      = some "Mon, 01 Jan 2024 00:00:00 GMT" ∧
    (download_single_file fb0 mOk "drug" "event" 0
        ⟨none, some "Mon, 01 Jan 2024 00:00:00 GMT", none⟩
        (fun _ => .connFail "connection refused")).state.artifact = none :=
  ⟨rfl, rfl⟩

/-- C4 amended: the marker is written only strictly after the artifact move,
so the pairing invariant is preserved: if the pre-state satisfies it (marker
present implies artifact present and non-empty) and every successful response
body is non-empty, the post-state satisfies it as well. -/
theorem C4_pairing_preserved (fb : String → Option Int) (data : Json)
    (dt fn : String) (idx : Nat) (st : LocalState) (net : HttpRequest → HttpResp)
    (hpre : st.marker.isSome → st.artifact ≠ none ∧ st.artifact ≠ some "")
    (hbody : ∀ r b lm, net r = .ok b lm → b ≠ "") :
    (download_single_file fb data dt fn idx st net).state.marker.isSome →
      (download_single_file fb data dt fn idx st net).state.artifact ≠ none ∧
      (download_single_file fb data dt fn idx st net).state.artifact ≠ some "" := by
  rcases worker_cases fb data dt fn idx st net with ⟨ed, u, hx, heq⟩ | heq | ⟨g, heq⟩
  · rw [heq]
    exact workerFetch_pairing _ _ _ _ _ hpre hbody
  · rw [heq]
    exact hpre
  · rw [heq]
    exact hpre

/-- C4 witness: a fresh successful download commits a non-empty artifact and
then its marker. -/
theorem C4_pairing_preserved_witness :
    (download_single_file fb0 mOk "drug" "event" 0 st0
        (fun _ => .ok "payload" (some "Mon, 05 Feb 2024 00:00:00 GMT"))).state.artifact
      ≠ none ∧
    (download_single_file fb0 mOk "drug" "event" 0 st0
        (fun _ => .ok "payload" (some "Mon, 05 Feb 2024 00:00:00 GMT"))).state.artifact
      ≠ some "" :=
  C4_pairing_preserved fb0 mOk "drug" "event" 0 st0
    (fun _ => .ok "payload" (some "Mon, 05 Feb 2024 00:00:00 GMT"))
    (by simp [st0]) (fun r b lm h => by cases h; simp) (by decide)

/-- C6 counterexample.  The claim says every GET issued while a marker file
exists carries If-Modified-Since - including when the artifact file is
missing.  In the code the marker is read only when both files exist, so with
a marker and no artifact the GET goes out unconditional. -/
theorem C6_ims_counterexample :
    (download_single_file fb0 mOk "drug" "event" 0
        ⟨none, some "Mon, 01 Jan 2024 00:00:00 GMT", none⟩
        (fun _ => .ok "body" none)).requests
      = [⟨"https://h/a/b.zip", none⟩] :=
  rfl

/-- C6 amended: whenever the worker issues a GET, its If-Modified-Since header
is the stored stripped marker exactly when both the marker and the artifact
existed in the pre-state (the stale case) and the stripped marker is
non-empty; otherwise - marker without artifact, no marker, or a marker that
strips to the empty string - the request is unconditional. -/
theorem C6_ims_exactly_when_both_exist (fb : String → Option Int) (data : Json)
    (dt fn : String) (idx : Nat) (st : LocalState) (net : HttpRequest → HttpResp) :
    ∀ r, (download_single_file fb data dt fn idx st net).requests = [r] →
      r.ifModifiedSince = imsOf (prevOf st) := by
  intro r hr
  rcases worker_cases fb data dt fn idx st net with ⟨ed, u, hx, heq⟩ | heq | ⟨g, heq⟩
  · rw [heq, workerFetch_requests] at hr
    have : (⟨u, imsOf (prevOf st)⟩ : HttpRequest) = r := by
      simpa using hr
    rw [← this]
  · rw [heq] at hr
    simp at hr
  · rw [heq] at hr
    simp at hr

/-- C6 witness: both files exist but the marker is stale, so the GET carries
the stored marker as If-Modified-Since. -/
theorem C6_ims_witness :
    (⟨"https://h/a/b.zip", some "2020-01-01"⟩ : HttpRequest).ifModifiedSince =
      imsOf (prevOf ⟨some "binary", some "2020-01-01", none⟩) :=
  C6_ims_exactly_when_both_exist fb0 mOk "drug" "event" 0
    ⟨some "binary", some "2020-01-01", none⟩ (fun _ => .notModified)
    ⟨"https://h/a/b.zip", some "2020-01-01"⟩ rfl

/-- C5 counterexample.  The claim says a manifest with an entry lacking
`export_date` fails before any fetch starts, with no partition of any entry
fetched.  In the code only `partitions` is touched while the task list is
built, so the malformed `label` entry is not detected up front: the task list
is produced, the well-formed partition is fetched (a request goes out), and
the run crashes only afterwards on the worker exception. -/
theorem C5_missing_export_date_counterexample :
    download_list mMixed = .ok [("drug", "event", 0), ("drug", "label", 0)] ∧
    mainRequests fb0 mMixed (fun _ => st0) (fun _ => .ok "b" none) =
      [⟨"https://h/a/good.zip", none⟩] ∧
    mainRun fb0 mMixed (fun _ => st0) (fun _ => .ok "b" none) =
      .crashed (.unboundLocalError "filename") :=
  ⟨rfl, rfl, rfl⟩

/-- C5 amended: when task-list construction itself fails - as it does for an
entry lacking the `partitions` sequence, a raised KeyError - the run crashes
before any fetch: no worker is invoked and no network request is issued.  A
missing `export_date` or `file` attribute is detected only per task inside
the Fetch Worker, after fetching of other tasks has begun. -/
theorem C5_build_error_aborts_before_fetch (fb : String → Option Int)
    (data : Json) (st : Nat → LocalState) (net : HttpRequest → HttpResp)
    (e : PyExn) (hb : download_list data = .error e) :
    mainRun fb data st net = .crashed e ∧ mainRequests fb data st net = [] := by
  simp [mainRun, mainRequests, hb]

/-- C5 witness: an entry without `partitions` makes task-list construction
raise KeyError, the run crashes, and no request is issued. -/
theorem C5_build_error_witness :
    download_list mNoParts = .error (.keyError "partitions") ∧
    mainRun fb0 mNoParts (fun _ => st0) (fun _ => .ok "b" none) =
      .crashed (.keyError "partitions") ∧
    mainRequests fb0 mNoParts (fun _ => st0) (fun _ => .ok "b" none) = [] := by
  have h := C5_build_error_aborts_before_fetch fb0 mNoParts (fun _ => st0)
    (fun _ => .ok "b" none) (.keyError "partitions") rfl
  exact ⟨rfl, h.1, h.2⟩

/-- C7 counterexample.  The claim says every run that reaches the fetching
phase exits only after every task has been attempted and its result
collected exactly once, with the exit code determined by the collected
results.  Here the run reaches the fetch phase (the first partition is
fetched and committed; its result is the Error-family message the line-141
RuntimeError forces), but the malformed `label` task raises instead of
returning a result, so the run aborts through an escaping worker exception:
a non-zero exit with no summary, the second task never producing a result
and neither task ever being counted. -/
theorem C7_crash_counterexample :
    mainRun fb0 mMixed (fun _ => st0) (fun _ => .ok "payload" none) =
      .crashed (.unboundLocalError "filename") ∧
    collectedMsgs (workerOuts fb0 mMixed (fun _ => st0)
        (fun _ => .ok "payload" none) [("drug", "event", 0), ("drug", "label", 0)]) =
      ["Error processing good.zip: The content for this response was already consumed"] :=
  ⟨rfl, rfl⟩

/-- C7 amended: provided every worker invocation returns a TaskResult (no
exception escapes), the run exits through the summary with code 1 exactly
when the Failed/Error family is non-empty and 0 otherwise, and every task is
counted exactly once: the three family counts add up to the number of
tasks.  Note that in `02_download.py` even a committed download lands in the
Error family (the line-141 RuntimeError, see `respond`), so any run that
actually transfers a file exits non-zero; the iff between the exit code and
the Failed/Error bucket is unaffected. -/
theorem C7_exit_code_iff_failures (fb : String → Option Int) (data : Json)
    (st : Nat → LocalState) (net : HttpRequest → HttpResp)
    (tasks : List (String × String × Nat))
    (hb : download_list data = .ok tasks) (hne : tasks ≠ [])
    (hok : firstExn (workerOuts fb data st net tasks) = none) :
    mainRun fb data st net =
      .exitCode
        (if (categorize (collectedMsgs (workerOuts fb data st net tasks))).failed.isEmpty
          then 0 else 1)
        (categorize (collectedMsgs (workerOuts fb data st net tasks))) ∧
    (categorize (collectedMsgs (workerOuts fb data st net tasks))).downloaded +
      (categorize (collectedMsgs (workerOuts fb data st net tasks))).skipped +
      (categorize (collectedMsgs (workerOuts fb data st net tasks))).failed.length
      = tasks.length := by
  obtain ⟨t, ts, rfl⟩ : ∃ t ts, tasks = t :: ts := by
    cases tasks with
    | nil => exact absurd rfl hne
    | cons t ts => exact ⟨t, ts, rfl⟩
  constructor
  · simp [mainRun, hb, hok]
  · have h1 := counts_of_no_exn _ hok
    have h2 : (workerOuts fb data st net (t :: ts)).length = (t :: ts).length := by
      simp [workerOuts]
    omega

/-- C7 witness: a single task failing over the network is counted, and the
run exits with code 1. -/
theorem C7_exit_code_witness :
    mainRun fb0 mOk (fun _ => st0) (fun _ => .connFail "server down") =
      .exitCode
        (if (categorize (collectedMsgs (workerOuts fb0 mOk (fun _ => st0)
            (fun _ => .connFail "server down") [("drug", "event", 0)]))).failed.isEmpty
          then 0 else 1)
        (categorize (collectedMsgs (workerOuts fb0 mOk (fun _ => st0)
            (fun _ => .connFail "server down") [("drug", "event", 0)]))) ∧
    (categorize (collectedMsgs (workerOuts fb0 mOk (fun _ => st0)
        (fun _ => .connFail "server down") [("drug", "event", 0)]))).downloaded +
      (categorize (collectedMsgs (workerOuts fb0 mOk (fun _ => st0)
          (fun _ => .connFail "server down") [("drug", "event", 0)]))).skipped +
      (categorize (collectedMsgs (workerOuts fb0 mOk (fun _ => st0)
          (fun _ => .connFail "server down") [("drug", "event", 0)]))).failed.length
      = 1 :=
  C7_exit_code_iff_failures fb0 mOk (fun _ => st0) (fun _ => .connFail "server down")
    [("drug", "event", 0)] rfl (by simp) rfl

/-- C8.  `parse_date` is a total function in the model (every exception path
of the source ends in the `return 0` fallback), and its value is produced by
the claimed chain: the first of the four fixed formats that parses the
stripped input wins with earlier formats having failed; otherwise, if the
generic fallback parses, its value is returned; otherwise the result is the
epoch value 0. -/
theorem C8_parse_date_chain (fb : String → Option Int) (s : String) :
    (∃ i, i < 4 ∧ strptimeAt i (pyStrip s) = some (parse_date fb s) ∧
      ∀ j, j < i → strptimeAt j (pyStrip s) = none) ∨
    ((∀ i, i < 4 → strptimeAt i (pyStrip s) = none) ∧
      fb s = some (parse_date fb s)) ∨
    ((∀ i, i < 4 → strptimeAt i (pyStrip s) = none) ∧ fb s = none ∧
      parse_date fb s = 0) := by
  cases h1 : strptime1 (pyStrip s) with
  | some t =>
    left
    refine ⟨0, by omega, ?_, by omega⟩
    simp [strptimeAt, parse_date, tryFormats, h1]
  | none =>
    cases h2 : strptime2 (pyStrip s) with
    | some t =>
      left
      refine ⟨1, by omega, ?_, ?_⟩
      · simp [strptimeAt, parse_date, tryFormats, h1, h2]
      · intro j hj
        interval_cases j
        · simpa [strptimeAt] using h1
    | none =>
      cases h3 : strptime3 (pyStrip s) with
      | some t =>
        left
        refine ⟨2, by omega, ?_, ?_⟩
        · simp [strptimeAt, parse_date, tryFormats, h1, h2, h3]
        · intro j hj
          interval_cases j
          · simpa [strptimeAt] using h1
          · simpa [strptimeAt] using h2
      | none =>
        cases h4 : strptime4 (pyStrip s) with
        | some t =>
          left
          refine ⟨3, by omega, ?_, ?_⟩
          · simp [strptimeAt, parse_date, tryFormats, h1, h2, h3, h4]
          · intro j hj
            interval_cases j
            · simpa [strptimeAt] using h1
            · simpa [strptimeAt] using h2
            · simpa [strptimeAt] using h3
        | none =>
          have hall : ∀ i, i < 4 → strptimeAt i (pyStrip s) = none := by
            intro i hi
            interval_cases i <;> simp [strptimeAt, h1, h2, h3, h4]
          cases hf : fb s with
          | some t =>
            right; left
            exact ⟨hall, by simp [parse_date, tryFormats, h1, h2, h3, h4, hf]⟩
          | none =>
            right; right
            exact ⟨hall, rfl, by simp [parse_date, tryFormats, h1, h2, h3, h4, hf]⟩

/-- C9 counterexample.  The claim quantifies over every string in one of the
four supported formats, but a supported date at or before the epoch parses to
a non-positive timestamp: "1969-01-01" is a valid `%Y-%m-%d` string whose
instant is negative, so it is not greater than the epoch value of an
unparseable string. -/
theorem C9_monotonicity_counterexample :
    tryFormats (pyStrip "1969-01-01") = some (-31536000) ∧
    parse_date fb0 "1969-01-01" = -31536000 ∧
    parse_date fb0 "garbage" = 0 ∧
    ¬ parse_date fb0 "1969-01-01" > parse_date fb0 "garbage" :=
  ⟨by decide, by decide, by decide, by decide⟩

/-- C9 amended: for every pair (a, b) where a parses under the supported
format chain to an instant strictly after the epoch and b is an epoch string,
the parsed instant of a is strictly greater. -/
theorem C9_monotonic_after_epoch (fb : String → Option Int) (a b : String)
    (t : Int) (ha : tryFormats (pyStrip a) = some t) (hpos : 0 < t)
    (hb : parse_date fb b = 0) :
    parse_date fb a > parse_date fb b := by
  have h : parse_date fb a = t := by simp [parse_date, ha]
  rw [h, hb]
  exact hpos

/-- C9 witness: a post-epoch supported date against an unparseable string. -/
theorem C9_monotonic_witness :
    parse_date fb0 "2024-01-02" > parse_date fb0 "not a date" :=
  C9_monotonic_after_epoch fb0 "2024-01-02" "not a date" 1704153600
    (by decide) (by decide) (by decide)

/-- C10.  A manifest that parses but yields zero fetch tasks makes `main`
return early: the outcome is exit code 0 with an all-zero summary, no worker
runs and no network request is issued. -/
theorem C10_zero_tasks_exit_success (fb : String → Option Int) (data : Json)
    (st : Nat → LocalState) (net : HttpRequest → HttpResp)
    (hb : download_list data = .ok []) :
    mainRun fb data st net = .exitCode 0 ⟨0, 0, []⟩ ∧
    mainRequests fb data st net = [] := by
  simp [mainRun, mainRequests, hb]

/-- C10 witness: a manifest whose only entry has an empty `partitions` list. -/
theorem C10_zero_tasks_witness :
    mainRun fb0 mEmptyParts (fun _ => st0) (fun _ => .notModified) =
      .exitCode 0 ⟨0, 0, []⟩ ∧
    mainRequests fb0 mEmptyParts (fun _ => st0) (fun _ => .notModified) = [] :=
  C10_zero_tasks_exit_success fb0 mEmptyParts (fun _ => st0)
    (fun _ => .notModified) rfl

end OpenFda
